import Mathlib

/-!
Shallow embedding of the Task Management API backend (`src/backend/server.py`)
and proofs about its authentication and task-ownership behavior.

Modelling conventions:
* MongoDB collections are Lean lists in insertion (natural) order; `find_one`
  is `List.find?`, `delete_one` is `List.eraseP`, `delete_many` is a filter,
  and `update_one` with `$set` updates the first matching element.
* Timestamps are `Nat` instants; `datetime.now(timezone.utc).isoformat()`
  becomes `isoNow now`, and the `fromisoformat`/`isoformat` round trips in the
  handlers are identities, so they are elided.
* A JWT is modelled as its decoded content together with the key that signed
  it; `jwt.decode` succeeds exactly when the key matches the process secret
  and the token is unexpired, and any other bearer string is `malformed`.
* Pydantic request-model validation runs before each handler (FastAPI returns
  HTTP 422 for it, modelled as `ApiError.validation`); `HTTPException`s raised
  inside handlers keep their status codes (400/401/404).  A missing
  `Authorization` header is rejected by `HTTPBearer` (`auto_error=True`) with
  HTTP 403 "Not authenticated" before `get_current_user`'s own checks run.
* Pydantic partial-update models distinguish "field absent" from "field
  supplied as null": a field of `TaskUpdate`/`UserUpdate` is
  `Option (Option α)` — `none` means not supplied (`exclude_unset` drops it),
  `some none` means explicitly `null`, `some (some v)` means supplied as `v`.
* Stored documents can hold `null` in fields that `$set` may null out, hence
  `Option` fields on `TaskDoc`/`UserDoc`; response models (`TaskResponse`,
  `UserResponse`) require the non-null fields, and building a response from a
  document violating that is FastAPI response validation failing (HTTP 500),
  modelled as `ApiError.internal`.
* `bcrypt` hashing is abstracted to an injective tagging function; no claim
  here depends on hash irreversibility or salting.
-/

deriving instance DecidableEq for Except

namespace TaskApi

/-- The status whitelist `allowed_statuses` used by `TaskCreate`,
`TaskUpdate` and `get_tasks` in `server.py`. -/
def allowedStatuses : List String := ["pending", "in-progress", "completed"]

/-- `SECRET_KEY` (the process-wide JWT signing secret, default value). -/
def SECRET_KEY : String := "your-secret-key-change-in-production-123456789"

/-- `ACCESS_TOKEN_EXPIRE_MINUTES = 60 * 24`. -/
def ACCESS_TOKEN_EXPIRE_MINUTES : Nat := 60 * 24

/-- Decoded JWT payload: optional `sub` claim and absolute expiry instant. -/
structure JwtPayload where
  sub : Option String
  exp : Nat
deriving DecidableEq

/-- A signed token: payload plus the key it was signed with. -/
structure SignedJwt where
  payload : JwtPayload
  key : String
deriving DecidableEq

/-- A bearer string: either a well-formed signed JWT or garbage. -/
inductive BearerToken where
  | signed (jwtv : SignedJwt)
  | malformed (raw : String)
deriving DecidableEq

/-- `jwt.encode(payload, key)`. -/
def jwtEncode (p : JwtPayload) (key : String) : BearerToken := .signed ⟨p, key⟩

/-- `jwt.decode(token, key, algorithms=[ALGORITHM])` at instant `now`:
fails (raising `InvalidTokenError`) on malformed input, a wrong key, or an
expired token. -/
def jwtDecode (tok : BearerToken) (key : String) (now : Nat) : Option JwtPayload :=
  match tok with
  | .malformed _ => none
  | .signed s => if s.key = key ∧ now < s.payload.exp then some s.payload else none

/-- `create_access_token(data={"sub": sub})` with the default expiry delta. -/
def create_access_token (sub : String) (now : Nat) : BearerToken :=
  jwtEncode { sub := some sub, exp := now + ACCESS_TOKEN_EXPIRE_MINUTES * 60 } SECRET_KEY

/-- Error outcomes of a request, tagged with the HTTP status they carry. -/
inductive ApiError where
  | validation (detail : String)
  | badRequest (detail : String)
  | unauthorized (detail : String)
  | forbidden (detail : String)
  | notFound (detail : String)
  | internal (detail : String)
deriving DecidableEq

/-- HTTP status code of each error class. -/
def ApiError.statusCode : ApiError → Nat
  | .validation _ => 422
  | .badRequest _ => 400
  | .unauthorized _ => 401
  | .forbidden _ => 403
  | .notFound _ => 404
  | .internal _ => 500

/-- Stored user document (`db.users`).  `username`/`email` are `Option`
because a profile update supplying them as explicit `null` writes `null`
via `$set`; signup always stores strings. -/
structure UserDoc where
  id : String
  username : Option String
  email : Option String
  password : String
  full_name : Option String
  created_at : String
deriving DecidableEq

/-- Stored task document (`db.tasks`).  `title`/`status` are `Option`
because an update supplying them as explicit `null` writes `null` via
`$set`; creation always stores strings. -/
structure TaskDoc where
  id : String
  title : Option String
  description : Option String
  status : Option String
  due_date : Option String
  created_at : String
  user_id : String
deriving DecidableEq

/-- The two MongoDB collections, in natural (insertion) order. -/
structure AppState where
  users : List UserDoc
  tasks : List TaskDoc
deriving DecidableEq

/-- A task document that satisfies the `TaskResponse` schema
(`title: str`, `status: str`). -/
def TaskDoc.wf (t : TaskDoc) : Bool := t.title.isSome && t.status.isSome

/-- All stored tasks satisfy the `TaskResponse` schema. -/
def AppState.wfTasks (st : AppState) : Bool := st.tasks.all TaskDoc.wf

/-- `datetime.now(timezone.utc).isoformat()` at instant `now`. -/
def isoNow (now : Nat) : String := toString now

/-- `get_password_hash` (bcrypt), abstracted to an injective tag. -/
def get_password_hash (password : String) : String := "bcrypt$" ++ password

/-- The shared 401 `credentials_exception` of `get_current_user`. -/
def credentials_exception : ApiError := .unauthorized "Could not validate credentials"

/-- `get_current_user` including its `HTTPBearer` dependency: a missing
bearer credential is rejected by `HTTPBearer(auto_error=True)` with HTTP 403
"Not authenticated"; then decode failure, a missing `sub` claim, and an
unknown user id all raise the same 401 `credentials_exception`. -/
def get_current_user (creds : Option BearerToken) (now : Nat) (st : AppState) :
    Except ApiError UserDoc :=
  match creds with
  | none => .error (.forbidden "Not authenticated")
  | some tok =>
    match jwtDecode tok SECRET_KEY now with
    | none => .error credentials_exception
    | some payload =>
      match payload.sub with
      | none => .error credentials_exception
      | some user_id =>
        match st.users.find? (fun u => u.id == user_id) with
        | none => .error credentials_exception
        | some u => .ok u

/-- Validated `UserCreate` body. -/
structure UserCreate where
  username : String
  email : String
  password : String
  full_name : Option String
deriving DecidableEq

/-- Raw signup JSON before pydantic validation (`none` = field absent). -/
structure RawUserCreate where
  username : Option String
  email : Option String
  password : Option String
  full_name : Option String
deriving DecidableEq

/-- Pydantic validation of `UserCreate`: `username` 3–50 chars,
`password` at least 6 chars, `username`/`email`/`password` required. -/
def parseUserCreate (r : RawUserCreate) : Except ApiError UserCreate :=
  match r.username, r.email, r.password with
  | some un, some em, some pw =>
    if un.length < 3 || un.length > 50 then
      .error (.validation "username: invalid length")
    else if pw.length < 6 then
      .error (.validation "password: String should have at least 6 characters")
    else
      .ok { username := un, email := em, password := pw, full_name := r.full_name }
  | _, _, _ => .error (.validation "Field required")

/-- `UserResponse` (public profile). -/
structure UserResponse where
  id : String
  username : String
  email : String
  full_name : Option String
  created_at : String
deriving DecidableEq

/-- FastAPI validating a stored user document against `UserResponse`:
fails (HTTP 500) if `username` or `email` is `null`. -/
def mkUserResponse (u : UserDoc) : Except ApiError UserResponse :=
  match u.username, u.email with
  | some un, some em =>
    .ok { id := u.id, username := un, email := em,
          full_name := u.full_name, created_at := u.created_at }
  | _, _ => .error (.internal "ResponseValidationError")

/-- The `Token` response model of signup/login. -/
structure Token where
  access_token : BearerToken
  token_type : String
  user : UserResponse
deriving DecidableEq

/-- The user document `signup` inserts for a validated body. -/
def mkNewUser (user_data : UserCreate) (genId : String) (now : Nat) : UserDoc :=
  { id := genId, username := some user_data.username, email := some user_data.email,
    password := get_password_hash user_data.password,
    full_name := user_data.full_name, created_at := isoNow now }

/-- `signup` handler body (post-validation).  `genId` is the fresh
`uuid.uuid4()` string, `now` the request instant.  `find_one` with the
`$or` duplicate query returns the first stored user matching either
condition; the error names `email` if that user's email matches, else
`username`. -/
def signup (user_data : UserCreate) (genId : String) (now : Nat) (st : AppState) :
    Except ApiError Token × AppState :=
  match st.users.find? (fun u =>
      u.email == some user_data.email || u.username == some user_data.username) with
  | some existing_user =>
    if existing_user.email == some user_data.email then
      (.error (.badRequest "Email already registered"), st)
    else
      (.error (.badRequest "Username already taken"), st)
  | none =>
    let newUser := mkNewUser user_data genId now
    (.ok { access_token := create_access_token genId now,
           token_type := "bearer",
           user := { id := genId, username := user_data.username,
                     email := user_data.email, full_name := user_data.full_name,
                     created_at := isoNow now } },
     { st with users := st.users ++ [newUser] })

/-- The full `POST /api/auth/signup` route: pydantic validation, then the
handler; validation failure leaves the store untouched. -/
def signupRoute (raw : RawUserCreate) (genId : String) (now : Nat) (st : AppState) :
    Except ApiError Token × AppState :=
  match parseUserCreate raw with
  | .error e => (.error e, st)
  | .ok user_data => signup user_data genId now st

/-- `UserUpdate` body after pydantic parsing, fields three-valued
(absent / explicit null / value). -/
structure UserUpdate where
  username : Option (Option String)
  email : Option (Option String)
  full_name : Option (Option String)
  password : Option (Option String)
deriving DecidableEq

/-- Pydantic constraints of `UserUpdate`: a supplied string `username` has
3–50 chars and a supplied string `password` at least 6; explicit `null`
passes (the constraints sit on the `str` branch of `Optional[str]`). -/
def validUserUpdate (u : UserUpdate) : Bool :=
  (match u.username with | some (some s) => 3 ≤ s.length && s.length ≤ 50 | _ => true) &&
  (match u.password with | some (some p) => 6 ≤ p.length | _ => true)

/-- `model_dump(exclude_unset=True)` is empty. -/
def emptyUserUpdate (u : UserUpdate) : Bool :=
  u.username.isNone && u.email.isNone && u.full_name.isNone && u.password.isNone

/-- Replace the first element satisfying `p` by its image under `f`
(MongoDB `update_one` + `$set`). -/
def updateFirst (p : α → Bool) (f : α → α) : List α → List α
  | [] => []
  | x :: xs => if p x then f x :: xs else x :: updateFirst p f xs

/-- Apply a `$set` of the supplied `UserUpdate` fields (password already
hashed, passed separately) to a stored user. -/
def applyUserUpdate (u : UserUpdate) (hashed : Option String) (x : UserDoc) : UserDoc :=
  { x with
    username := match u.username with | none => x.username | some v => v
    email := match u.email with | none => x.email | some v => v
    full_name := match u.full_name with | none => x.full_name | some v => v
    password := match hashed with | none => x.password | some h => h }

/-- Tail of `update_user_profile` after the duplicate checks: hash the
password if supplied (`get_password_hash(None)` raises `TypeError`, an
HTTP 500, when the password was explicit `null`), `$set` the supplied
fields on the caller's document, re-read it and return the public profile. -/
def persistProfileUpdate (user_update : UserUpdate) (current_user : UserDoc)
    (st : AppState) : Except ApiError UserResponse × AppState :=
  match user_update.password with
  | some none => (.error (.internal "TypeError: secret must be a string"), st)
  | _ =>
    let hashed : Option String :=
      match user_update.password with
      | some (some p) => some (get_password_hash p)
      | _ => none
    let users' := updateFirst (fun x => x.id == current_user.id)
      (applyUserUpdate user_update hashed) st.users
    let st' : AppState := { st with users := users' }
    match users'.find? (fun x => x.id == current_user.id) with
    | none => (.error (.internal "user not found after update"), st')
    | some u' => (mkUserResponse u', st')

/-- `update_user_profile` handler body (post-validation): reject an empty
partial set with 400; if `username`/`email` supplied, look for another
user matching either value and fail per-field; otherwise persist. -/
def update_user_profile (user_update : UserUpdate) (current_user : UserDoc)
    (st : AppState) : Except ApiError UserResponse × AppState :=
  if emptyUserUpdate user_update then
    (.error (.badRequest "No fields to update"), st)
  else if user_update.username.isSome || user_update.email.isSome then
    match st.users.find? (fun x => (!(x.id == current_user.id)) &&
        ((match user_update.username with | some v => x.username == v | none => false) ||
         (match user_update.email with | some v => x.email == v | none => false))) with
    | some existing_user =>
      if (match user_update.email with
          | some v => existing_user.email == v | none => false) then
        (.error (.badRequest "Email already in use"), st)
      else if (match user_update.username with
          | some v => existing_user.username == v | none => false) then
        (.error (.badRequest "Username already taken"), st)
      else persistProfileUpdate user_update current_user st
    | none => persistProfileUpdate user_update current_user st
  else persistProfileUpdate user_update current_user st

/-- The full `PUT /api/user/profile` route (pydantic validation, then the
handler). -/
def updateProfileRoute (user_update : UserUpdate) (current_user : UserDoc)
    (st : AppState) : Except ApiError UserResponse × AppState :=
  if validUserUpdate user_update then update_user_profile user_update current_user st
  else (.error (.validation "1 validation error for UserUpdate"), st)

/-- `delete_user_profile`: `delete_many` on the caller's tasks, then
`delete_one` on the caller's user document. -/
def delete_user_profile (uid : String) (st : AppState) :
    Except ApiError String × AppState :=
  let st1 : AppState := { st with tasks := st.tasks.filter (fun t => !(t.user_id == uid)) }
  let st2 : AppState := { st1 with users := st1.users.eraseP (fun u => u.id == uid) }
  (.ok "User profile and all associated tasks deleted successfully", st2)

/-- Validated `TaskCreate` body. -/
structure TaskCreate where
  title : String
  description : Option String
  status : String
  due_date : Option String
deriving DecidableEq

/-- Raw task-creation JSON before pydantic validation (`none` = absent;
`status` defaults to `"pending"` when absent). -/
structure RawTaskCreate where
  title : Option String
  description : Option String
  status : Option String
  due_date : Option String
deriving DecidableEq

/-- Pydantic validation of `TaskCreate`: `title` required with 1–200
chars; `status` defaults to `"pending"` and must be in the whitelist
(the `validate_status` field validator). -/
def parseTaskCreate (r : RawTaskCreate) : Except ApiError TaskCreate :=
  match r.title with
  | none => .error (.validation "title: Field required")
  | some ti =>
    if ti.length < 1 || ti.length > 200 then
      .error (.validation "title: invalid length")
    else
      let s := r.status.getD "pending"
      if s ∈ allowedStatuses then
        .ok { title := ti, description := r.description, status := s, due_date := r.due_date }
      else
        .error (.validation "Status must be one of: pending, in-progress, completed")

/-- `TaskResponse` model. -/
structure TaskResponse where
  id : String
  title : String
  description : Option String
  status : String
  due_date : Option String
  created_at : String
  user_id : String
deriving DecidableEq

/-- FastAPI validating a stored task against `TaskResponse`: fails
(HTTP 500) if `title` or `status` is `null`. -/
def mkTaskResponse (t : TaskDoc) : Except ApiError TaskResponse :=
  match t.title, t.status with
  | some ti, some s =>
    .ok { id := t.id, title := ti, description := t.description, status := s,
          due_date := t.due_date, created_at := t.created_at, user_id := t.user_id }
  | _, _ => .error (.internal "ResponseValidationError")

/-- Total counterpart of `mkTaskResponse`, agreeing with it on `wf` tasks;
used only to state theorems. -/
def taskResponseOf (t : TaskDoc) : TaskResponse :=
  { id := t.id, title := t.title.getD "", description := t.description,
    status := t.status.getD "", due_date := t.due_date,
    created_at := t.created_at, user_id := t.user_id }

/-- The task document `create_task` inserts: fresh id, `user_id` stamped
from the resolved caller, `created_at` stamped from the clock. -/
def mkNewTask (task_data : TaskCreate) (uid genId : String) (now : Nat) : TaskDoc :=
  { id := genId, title := some task_data.title, description := task_data.description,
    status := some task_data.status, due_date := task_data.due_date,
    created_at := isoNow now, user_id := uid }

/-- `create_task` handler body (post-validation). -/
def create_task (task_data : TaskCreate) (uid genId : String) (now : Nat)
    (st : AppState) : Except ApiError TaskResponse × AppState :=
  let t := mkNewTask task_data uid genId now
  (mkTaskResponse t, { st with tasks := st.tasks ++ [t] })

/-- The full `POST /api/tasks` route (pydantic validation, then the
handler); validation failure leaves the store untouched. -/
def createTaskRoute (raw : RawTaskCreate) (uid genId : String) (now : Nat)
    (st : AppState) : Except ApiError TaskResponse × AppState :=
  match parseTaskCreate raw with
  | .error e => (.error e, st)
  | .ok task_data => create_task task_data uid genId now st

/-- FastAPI validating the handler's task list against
`List[TaskResponse]`. -/
def listTaskResponses : List TaskDoc → Except ApiError (List TaskResponse)
  | [] => .ok []
  | t :: ts =>
    match mkTaskResponse t, listTaskResponses ts with
    | .ok r, .ok rs => .ok (r :: rs)
    | .error e, _ => .error e
    | .ok _, .error e => .error e

/-- `get_tasks` (`GET /api/tasks`): `if status_filter:` is Python
truthiness, so `None` and the empty string both skip the whitelist check
and return all owned tasks; `.to_list(1000)` caps the result at the first
1000 matches in natural order. -/
def get_tasks (status_filter : Option String) (uid : String) (st : AppState) :
    Except ApiError (List TaskResponse) :=
  let allOwned := listTaskResponses ((st.tasks.filter (fun t => t.user_id == uid)).take 1000)
  match status_filter with
  | none => allOwned
  | some s =>
    if s = "" then allOwned
    else if s ∈ allowedStatuses then
      listTaskResponses
        ((st.tasks.filter (fun t => t.user_id == uid && t.status == some s)).take 1000)
    else .error (.badRequest "Invalid status. Must be one of: pending, in-progress, completed")

/-- `get_task` (`GET /api/tasks/{task_id}`): `find_one` on id *and* owner;
absence and foreign ownership both yield the same 404. -/
def get_task (task_id uid : String) (st : AppState) : Except ApiError TaskResponse :=
  match st.tasks.find? (fun t => t.id == task_id && t.user_id == uid) with
  | none => .error (.notFound "Task not found")
  | some t => mkTaskResponse t

/-- `TaskUpdate` body after pydantic parsing, fields three-valued
(absent / explicit null / value). -/
structure TaskUpdate where
  title : Option (Option String)
  description : Option (Option String)
  status : Option (Option String)
  due_date : Option (Option String)
deriving DecidableEq

/-- Pydantic constraints of `TaskUpdate`: a supplied string `title` has
1–200 chars and a supplied string `status` is whitelisted; the
`validate_status` validator passes explicit `null` through (`if v is not
None`). -/
def validTaskUpdate (u : TaskUpdate) : Bool :=
  (match u.title with | some (some ti) => 1 ≤ ti.length && ti.length ≤ 200 | _ => true) &&
  (match u.status with | some (some s) => decide (s ∈ allowedStatuses) | _ => true)

/-- `model_dump(exclude_unset=True)` is empty. -/
def emptyTaskUpdate (u : TaskUpdate) : Bool :=
  u.title.isNone && u.description.isNone && u.status.isNone && u.due_date.isNone

/-- Apply a `$set` of the supplied `TaskUpdate` fields to a stored task:
supplied fields (including explicit `null`s) overwrite, absent fields and
`id`/`created_at`/`user_id` are untouched. -/
def applyTaskUpdate (u : TaskUpdate) (t : TaskDoc) : TaskDoc :=
  { t with
    title := match u.title with | none => t.title | some v => v
    description := match u.description with | none => t.description | some v => v
    status := match u.status with | none => t.status | some v => v
    due_date := match u.due_date with | none => t.due_date | some v => v }

/-- `update_task` handler body (post-validation): 404 unless a task with
this id is owned by the caller; 400 on an empty partial set; otherwise
`update_one({"id": task_id}, {"$set": ...})` (first match on id alone),
then re-read by id and return the response. -/
def update_task (task_id : String) (task_update : TaskUpdate) (uid : String)
    (st : AppState) : Except ApiError TaskResponse × AppState :=
  match st.tasks.find? (fun t => t.id == task_id && t.user_id == uid) with
  | none => (.error (.notFound "Task not found"), st)
  | some _ =>
    if emptyTaskUpdate task_update then
      (.error (.badRequest "No fields to update"), st)
    else
      let tasks' := updateFirst (fun t => t.id == task_id) (applyTaskUpdate task_update) st.tasks
      let st' : AppState := { st with tasks := tasks' }
      match tasks'.find? (fun t => t.id == task_id) with
      | none => (.error (.internal "task not found after update"), st')
      | some t' => (mkTaskResponse t', st')

/-- The full `PUT /api/tasks/{task_id}` route (pydantic validation, then
the handler). -/
def updateTaskRoute (task_id : String) (task_update : TaskUpdate) (uid : String)
    (st : AppState) : Except ApiError TaskResponse × AppState :=
  if validTaskUpdate task_update then update_task task_id task_update uid st
  else (.error (.validation "1 validation error for TaskUpdate"), st)

/-- `delete_task` (`DELETE /api/tasks/{task_id}`): `delete_one` on id and
owner; `deleted_count == 0` yields the same 404 as nonexistence. -/
def delete_task (task_id uid : String) (st : AppState) :
    Except ApiError String × AppState :=
  if st.tasks.any (fun t => t.id == task_id && t.user_id == uid) then
    (.ok "Task deleted successfully",
     { st with tasks := st.tasks.eraseP (fun t => t.id == task_id && t.user_id == uid) })
  else
    (.error (.notFound "Task not found"), st)

/-! ### Concrete fixtures used by closed theorems and witnesses -/

/-- A stored task owned by user `"A"`. -/
def sampleTask : TaskDoc :=
  { id := "tid-1", title := some "buy milk", description := none,
    status := some "pending", due_date := none, created_at := "1", user_id := "A" }

/-- A store holding exactly `sampleTask`. -/
def sampleSt : AppState := { users := [], tasks := [sampleTask] }

/-- Two stored users: `"alice"` owns one email, a second user owns another. -/
def dupSt : AppState :=
  { users := [{ id := "id1", username := some "alice", email := some "other@x.com",
                password := "h", full_name := none, created_at := "0" },
              { id := "id2", username := some "bob", email := some "a@x.com",
                password := "h", full_name := none, created_at := "0" }],
    tasks := [] }

/-- Run from the empty store: a valid signup. -/
def nullStatusRun1 : Except ApiError Token × AppState :=
  signupRoute { username := some "alice", email := some "a@x.com",
                password := some "secret1", full_name := none } "uid-1" 0 ⟨[], []⟩

/-- Then a valid task creation by the new user (status omitted). -/
def nullStatusRun2 : Except ApiError TaskResponse × AppState :=
  createTaskRoute { title := some "buy milk", description := none,
                    status := none, due_date := none } "uid-1" "tid-1" 1 nullStatusRun1.2

/-- Then an update whose body is exactly `{"status": null}`. -/
def nullStatusRun3 : Except ApiError TaskResponse × AppState :=
  updateTaskRoute "tid-1" { title := none, description := none,
                            status := some none, due_date := none } "uid-1" nullStatusRun2.2

/-- A stored user (fixture). -/
def sampleUser : UserDoc :=
  { id := "id1", username := some "alice", email := some "other@x.com",
    password := "h", full_name := none, created_at := "0" }

/-- A valid signup body (fixture). -/
def sampleSignup : UserCreate :=
  { username := "alice", email := "a@x.com", password := "secret1", full_name := none }

/-- The partial update body `{"status": "completed"}` (fixture). -/
def statusDone : TaskUpdate :=
  { title := none, description := none, status := some (some "completed"), due_date := none }

/-- A raw task-creation body with an out-of-whitelist status (fixture). -/
def bogusCreate : RawTaskCreate :=
  { title := some "t", description := none, status := some "nope", due_date := none }

/-- A raw signup body with a 3-character password (fixture). -/
def shortPwSignup : RawUserCreate :=
  { username := some "carol", email := some "c@x.com",
    password := some "abc", full_name := none }

/-- A profile-update body supplying a 3-character password (fixture). -/
def shortPwUpdate : UserUpdate :=
  { username := none, email := none, full_name := none, password := some (some "abc") }

/-! ### Helper lemmas -/

theorem map_if_key_eq_self {α : Type} (key : α → String) (f : α → α) (k : String)
    (l : List α) (h : ∀ y ∈ l, key y ≠ k) :
    l.map (fun x => if key x = k then f x else x) = l := by
  conv_rhs => rw [← List.map_id l]
  refine List.map_congr_left ?_
  intro y hy
  simp [h y hy]

theorem updateFirst_eq_map {α : Type} (key : α → String) (f : α → α) (k : String) :
    ∀ (l : List α), (l.map key).Nodup →
      updateFirst (fun x => key x == k) f l
        = l.map (fun x => if key x = k then f x else x)
  | [], _ => rfl
  | x :: xs, hnd => by
    simp only [List.map_cons, List.nodup_cons, List.mem_map] at hnd
    by_cases hx : key x = k
    · have hxs : ∀ y ∈ xs, key y ≠ k := by
        intro y hy hyk
        exact hnd.1 ⟨y, hy, hyk.trans hx.symm⟩
      have hb : (key x == k) = true := by simp [hx]
      simp only [updateFirst, List.map_cons, if_pos hx, if_pos hb]
      simp only [List.cons.injEq, true_and]
      exact (map_if_key_eq_self key f k xs hxs).symm
    · have hb : ¬ ((key x == k) = true) := by simp [hx]
      simp only [updateFirst, List.map_cons, if_neg hx, if_neg hb]
      simp only [List.cons.injEq, true_and]
      exact updateFirst_eq_map key f k xs hnd.2

theorem eraseP_key_ne {α : Type} (key : α → String) (k : String) :
    ∀ (l : List α), (l.map key).Nodup →
      ∀ x ∈ l.eraseP (fun y => key y == k), key x ≠ k
  | [], _, x, hx => by simp [List.eraseP] at hx
  | y :: ys, hnd, x, hx => by
    simp only [List.map_cons, List.nodup_cons, List.mem_map] at hnd
    by_cases hy : key y = k
    · rw [List.eraseP_cons_of_pos] at hx
      · intro hxk
        exact hnd.1 ⟨x, hx, hxk.trans hy.symm⟩
      · simp [hy]
    · rw [List.eraseP_cons_of_neg] at hx
      · rcases List.mem_cons.1 hx with h | h
        · subst h; exact hy
        · exact eraseP_key_ne key k ys hnd.2 x h
      · simp [hy]

theorem mkTaskResponse_of_wf (t : TaskDoc) (h : t.wf = true) :
    mkTaskResponse t = .ok (taskResponseOf t) := by
  rcases t with ⟨i, ti, de, s, dd, ca, ui⟩
  cases ti <;> cases s <;> simp_all [TaskDoc.wf, mkTaskResponse, taskResponseOf]

theorem listTaskResponses_of_wf :
    ∀ (l : List TaskDoc), (∀ t ∈ l, t.wf = true) →
      listTaskResponses l = .ok (l.map taskResponseOf)
  | [], _ => rfl
  | t :: ts, h => by
    simp only [listTaskResponses, List.map_cons]
    rw [mkTaskResponse_of_wf t (h t (List.mem_cons_self t ts)),
        listTaskResponses_of_wf ts (fun x hx => h x (List.mem_cons_of_mem _ hx))]

/-! ### Claim theorems -/

/-- C2 (code bug): the four failure modes of identity resolution do not all
produce the same Unauthorized error.  A request with no bearer credential is
rejected by the `HTTPBearer` dependency with HTTP 403 "Not authenticated",
while a malformed/forged token, a valid token without a `sub` claim, and a
valid token whose subject no longer exists all produce the identical HTTP 401
`credentials_exception` — so the missing-token mode is distinguishable, and
the repository's own test (`test_invalid_endpoints`, which expects 401 for a
token-less request) fails against this behavior. -/
theorem c2_missing_token_forbidden_not_unauthorized :
    get_current_user none 0 ⟨[], []⟩ = .error (.forbidden "Not authenticated") ∧
    (ApiError.forbidden "Not authenticated").statusCode = 403 ∧
    get_current_user (some (.malformed "garbage")) 0 ⟨[], []⟩
      = .error credentials_exception ∧
    get_current_user (some (jwtEncode ⟨none, 9⟩ SECRET_KEY)) 0 ⟨[], []⟩
      = .error credentials_exception ∧
    get_current_user (some (jwtEncode ⟨some "ghost", 9⟩ SECRET_KEY)) 0 ⟨[], []⟩
      = .error credentials_exception ∧
    credentials_exception.statusCode = 401 ∧
    ApiError.forbidden "Not authenticated" ≠ credentials_exception := by
  decide

/-- C5 (code bug): from the empty store, a valid signup, a valid task
creation, then an update whose body is exactly `{"status": null}` is accepted
past validation and the empty-body check, and `$set` writes `null` into the
stored task's `status` — violating the invariant that every stored status is
one of the three enumerated values, and making the route's own
`TaskResponse` validation fail (HTTP 500) after the store was mutated. -/
theorem c5_null_status_breaks_invariant :
    nullStatusRun1.1.isOk = true ∧
    nullStatusRun2.1.isOk = true ∧
    (∃ t ∈ nullStatusRun3.2.tasks, t.status = none) ∧
    nullStatusRun3.2.tasks
      = [{ id := "tid-1", title := some "buy milk", description := none,
           status := none, due_date := none, created_at := "1", user_id := "uid-1" }] ∧
    nullStatusRun3.1 = .error (.internal "ResponseValidationError") ∧
    nullStatusRun3.2.wfTasks = false := by
  decide

/-- C3 (counterexample): in a store where the first user matching the
signup's `$or` duplicate query conflicts only on username while a later user
conflicts on email, signing up with both conflicts reports "Username already
taken" — the email conflict is not the one reported, refuting "when both
fields conflict the email conflict is reported". -/
theorem c3_both_conflicts_report_username :
    (∃ u ∈ dupSt.users, u.email = some "a@x.com") ∧
    (∃ u ∈ dupSt.users, u.username = some "alice") ∧
    (signup { username := "alice", email := "a@x.com", password := "secret1",
              full_name := none } "id3" 5 dupSt).1
      = .error (.badRequest "Username already taken") ∧
    ApiError.badRequest "Username already taken"
      ≠ ApiError.badRequest "Email already registered" := by
  decide

/-- C7 (counterexample): creating a task with `status="bogus"` fails at
pydantic request validation with HTTP 422, not with a 400 BadRequest. -/
theorem c7_bogus_status_is_422_not_400 :
    createTaskRoute { title := some "t", description := none,
                      status := some "bogus", due_date := none } "A" "tid-9" 0 ⟨[], []⟩
      = (.error (.validation "Status must be one of: pending, in-progress, completed"),
         ⟨[], []⟩) ∧
    (ApiError.validation "Status must be one of: pending, in-progress, completed").statusCode
      = 422 ∧
    (ApiError.validation "Status must be one of: pending, in-progress, completed").statusCode
      ≠ 400 := by
  decide

/-- C8 (counterexample): supplying `status_filter` as the empty string does
not fail with BadRequest — the Python truthiness test `if status_filter:`
treats `""` as absent, and the call returns all of the caller's tasks. -/
theorem c8_empty_filter_returns_tasks :
    "" ∉ allowedStatuses ∧
    get_tasks (some "") "A" sampleSt = .ok [taskResponseOf sampleTask] := by
  decide

/-- C1: in a schema-conforming store with distinct task ids, Get returns a
task exactly when a task with that id exists and its stored `user_id` equals
the caller's resolved id; otherwise it fails with the one 404 `Task not
found`, the same for task-absent and foreign-owner causes; and a task owned
by user `uidA` is never returned or affected by Get/Update/Delete invoked
under a different resolved identity `uidB`. -/
theorem c1_get_ownership (st : AppState) (task_id uidA uidB : String)
    (hwf : st.wfTasks = true)
    (hnd : (st.tasks.map TaskDoc.id).Nodup) :
    ((∃ r, get_task task_id uidB st = .ok r) ↔
      ∃ t ∈ st.tasks, t.id = task_id ∧ t.user_id = uidB) ∧
    ((¬ ∃ t ∈ st.tasks, t.id = task_id ∧ t.user_id = uidB) →
      get_task task_id uidB st = .error (.notFound "Task not found")) ∧
    (∀ t ∈ st.tasks, t.user_id = uidA → uidA ≠ uidB →
      get_task t.id uidB st = .error (.notFound "Task not found") ∧
      t ∈ (delete_task t.id uidB st).2.tasks ∧
      ∀ u, t ∈ (update_task t.id u uidB st).2.tasks) := by
  refine ⟨⟨?_, ?_⟩, ?_, ?_⟩
  · rintro ⟨r, hr⟩
    cases hfind : st.tasks.find? (fun t => t.id == task_id && t.user_id == uidB) with
    | none => simp [get_task, hfind] at hr
    | some t =>
      have hp := List.find?_some hfind
      simp only [Bool.and_eq_true, beq_iff_eq] at hp
      exact ⟨t, List.mem_of_find?_eq_some hfind, hp.1, hp.2⟩
  · rintro ⟨t, hm, hid, huid⟩
    have hsome : (st.tasks.find? (fun t => t.id == task_id && t.user_id == uidB)).isSome :=
      List.find?_isSome.2 ⟨t, hm, by simp [hid, huid]⟩
    rcases Option.isSome_iff_exists.1 hsome with ⟨t', ht'⟩
    have hwf' : t'.wf = true :=
      (List.all_eq_true.1 hwf) t' (List.mem_of_find?_eq_some ht')
    exact ⟨taskResponseOf t', by simp [get_task, ht', mkTaskResponse_of_wf t' hwf']⟩
  · intro hno
    have hfind : st.tasks.find? (fun t => t.id == task_id && t.user_id == uidB) = none := by
      refine List.find?_eq_none.2 ?_
      intro x hx hpx
      simp only [Bool.and_eq_true, beq_iff_eq] at hpx
      exact hno ⟨x, hx, hpx.1, hpx.2⟩
    simp [get_task, hfind]
  · intro t hm huid hne
    have hnotp : ∀ x ∈ st.tasks, ¬ ((x.id == t.id && x.user_id == uidB) = true) := by
      intro x hx hpx
      simp only [Bool.and_eq_true, beq_iff_eq] at hpx
      have hxt : x = t := List.inj_on_of_nodup_map hnd hx hm hpx.1
      rw [hxt] at hpx
      exact hne (huid.symm.trans hpx.2)
    have hfind : st.tasks.find? (fun x => x.id == t.id && x.user_id == uidB) = none :=
      List.find?_eq_none.2 hnotp
    have hany : st.tasks.any (fun x => x.id == t.id && x.user_id == uidB) = false := by
      refine Bool.eq_false_iff.2 ?_
      intro hc
      rcases List.any_eq_true.1 hc with ⟨x, hx, hpx⟩
      exact hnotp x hx hpx
    refine ⟨by simp [get_task, hfind], ?_, ?_⟩
    · simpa [delete_task, hany] using hm
    · intro u
      simpa [update_task, hfind] using hm

/-- C4: after any successful signup, the returned token, verified through the
auth middleware against the post-signup store before expiry, resolves to a
user whose id is exactly the id generated for the new user. -/
theorem c4_signup_token_roundtrip (st : AppState) (ud : UserCreate) (genId : String)
    (now nowv : Nat)
    (hconf : st.users.find? (fun u =>
        u.email == some ud.email || u.username == some ud.username) = none)
    (hexp : nowv < now + ACCESS_TOKEN_EXPIRE_MINUTES * 60) :
    ∃ tokv u, (signup ud genId now st).1 = .ok tokv ∧
      get_current_user (some tokv.access_token) nowv (signup ud genId now st).2 = .ok u ∧
      u.id = genId := by
  have hsnd : (signup ud genId now st).2
      = { st with users := st.users ++ [mkNewUser ud genId now] } := by
    simp [signup, hconf]
  have hfst : (signup ud genId now st).1
      = .ok { access_token := create_access_token genId now, token_type := "bearer",
              user := { id := genId, username := ud.username, email := ud.email,
                        full_name := ud.full_name, created_at := isoNow now } } := by
    simp [signup, hconf]
  refine ⟨{ access_token := create_access_token genId now, token_type := "bearer",
            user := { id := genId, username := ud.username, email := ud.email,
                      full_name := ud.full_name, created_at := isoNow now } }, ?_⟩
  rw [hsnd]
  have hdec : jwtDecode (create_access_token genId now) SECRET_KEY nowv
      = some { sub := some genId, exp := now + ACCESS_TOKEN_EXPIRE_MINUTES * 60 } := by
    simp [create_access_token, jwtEncode, jwtDecode, hexp]
  simp only [get_current_user, hdec]
  rw [List.find?_append]
  cases hf : st.users.find? (fun u => u.id == genId) with
  | some u0 =>
    have hid := List.find?_some hf
    simp only [beq_iff_eq] at hid
    exact ⟨u0, hfst, by simp [Option.or], hid⟩
  | none =>
    refine ⟨mkNewUser ud genId now, hfst, ?_, rfl⟩
    simp [Option.or, List.find?, mkNewUser]

/-- C3 (amended): signup fails with BadRequest exactly when some stored user
has the same email or the same username (exact match on the stored values);
the reported field is determined by the *first* stored user matching either
condition — email if that user's email matches, otherwise username (so when
both fields conflict in one user the email conflict is reported, but when
they conflict in different users the username conflict may be the one
named); with no conflict the signup succeeds and appends the new user. -/
theorem c3_signup_duplicate_reporting (st : AppState) (ud : UserCreate)
    (genId : String) (now : Nat) :
    ((∃ d, (signup ud genId now st).1 = .error (.badRequest d)) ↔
      ∃ u ∈ st.users, u.email = some ud.email ∨ u.username = some ud.username) ∧
    (∀ ex, st.users.find? (fun u =>
        u.email == some ud.email || u.username == some ud.username) = some ex →
      signup ud genId now st
        = (.error (.badRequest (if ex.email = some ud.email
            then "Email already registered" else "Username already taken")), st)) ∧
    ((∀ u ∈ st.users, u.email ≠ some ud.email ∧ u.username ≠ some ud.username) →
      (∃ tokv, (signup ud genId now st).1 = .ok tokv) ∧
      (signup ud genId now st).2
        = { st with users := st.users ++ [mkNewUser ud genId now] }) := by
  refine ⟨⟨?_, ?_⟩, ?_, ?_⟩
  · rintro ⟨d, hd⟩
    cases hf : st.users.find? (fun u =>
        u.email == some ud.email || u.username == some ud.username) with
    | none => simp [signup, hf] at hd
    | some ex =>
      have hp := List.find?_some hf
      simp only [Bool.or_eq_true, beq_iff_eq] at hp
      exact ⟨ex, List.mem_of_find?_eq_some hf, hp⟩
  · rintro ⟨u, hm, hdisj⟩
    have hsome : (st.users.find? (fun u =>
        u.email == some ud.email || u.username == some ud.username)).isSome := by
      refine List.find?_isSome.2 ⟨u, hm, ?_⟩
      rcases hdisj with h | h <;> simp [h]
    rcases Option.isSome_iff_exists.1 hsome with ⟨ex, hex⟩
    by_cases he : ex.email = some ud.email
    · exact ⟨"Email already registered", by simp [signup, hex, he]⟩
    · exact ⟨"Username already taken", by simp [signup, hex, he]⟩
  · intro ex hex
    by_cases he : ex.email = some ud.email
    · simp [signup, hex, he]
    · simp [signup, hex, he]
  · intro hall
    have hf : st.users.find? (fun u =>
        u.email == some ud.email || u.username == some ud.username) = none := by
      refine List.find?_eq_none.2 ?_
      intro u hm hp
      simp only [Bool.or_eq_true, beq_iff_eq] at hp
      rcases hp with h | h
      · exact (hall u hm).1 h
      · exact (hall u hm).2 h
    refine ⟨⟨{ access_token := create_access_token genId now, token_type := "bearer",
               user := { id := genId, username := ud.username, email := ud.email,
                         full_name := ud.full_name, created_at := isoNow now } },
             by simp [signup, hf]⟩, by simp [signup, hf]⟩

/-- C6: on an owned task in a store with distinct task ids, an empty partial
update fails with 400 `No fields to update` and leaves the store unchanged;
a non-empty one rewrites exactly the task with that id through
`applyTaskUpdate` and leaves every other task untouched; and
`applyTaskUpdate` preserves `id`/`created_at`/`user_id` always and every
unsupplied field. -/
theorem c6_update_frame (st : AppState) (task_id uid : String) (u : TaskUpdate)
    (hnd : (st.tasks.map TaskDoc.id).Nodup)
    (hown : ∃ t ∈ st.tasks, t.id = task_id ∧ t.user_id = uid) :
    (emptyTaskUpdate u = true →
      update_task task_id u uid st = (.error (.badRequest "No fields to update"), st)) ∧
    (emptyTaskUpdate u = false →
      (update_task task_id u uid st).2.tasks
        = st.tasks.map (fun t => if t.id = task_id then applyTaskUpdate u t else t)) ∧
    (∀ t : TaskDoc,
      (applyTaskUpdate u t).id = t.id ∧
      (applyTaskUpdate u t).created_at = t.created_at ∧
      (applyTaskUpdate u t).user_id = t.user_id ∧
      (u.title = none → (applyTaskUpdate u t).title = t.title) ∧
      (u.description = none → (applyTaskUpdate u t).description = t.description) ∧
      (u.status = none → (applyTaskUpdate u t).status = t.status) ∧
      (u.due_date = none → (applyTaskUpdate u t).due_date = t.due_date)) := by
  obtain ⟨t0, hm0, hid0, huid0⟩ := hown
  have hsome : (st.tasks.find? (fun t => t.id == task_id && t.user_id == uid)).isSome :=
    List.find?_isSome.2 ⟨t0, hm0, by simp [hid0, huid0]⟩
  rcases Option.isSome_iff_exists.1 hsome with ⟨tf, htf⟩
  refine ⟨?_, ?_, ?_⟩
  · intro hemp
    simp [update_task, htf, hemp]
  · intro hemp
    have hmap := updateFirst_eq_map TaskDoc.id (applyTaskUpdate u) task_id st.tasks hnd
    simp only [update_task, htf, hemp]
    cases hf2 : (updateFirst (fun t => t.id == task_id) (applyTaskUpdate u) st.tasks).find?
        (fun t => t.id == task_id) with
    | none => simpa [hf2] using hmap
    | some t' => simpa [hf2] using hmap
  · intro t
    refine ⟨rfl, rfl, rfl, ?_, ?_, ?_, ?_⟩ <;> intro h <;> simp [applyTaskUpdate, h]

/-- C8 (amended): in a schema-conforming store, List with `status_filter`
absent *or equal to the empty string* returns the caller's tasks (the first
1000 matches in natural order — `.to_list(1000)` caps the result); with a
valid status it returns the caller's tasks with that status (same cap); and
with any other non-empty value it fails with 400 BadRequest. -/
theorem c8_list_filter_behavior (st : AppState) (uid : String)
    (status_filter : Option String) (hwf : st.wfTasks = true) :
    ((status_filter = none ∨ status_filter = some "") →
      get_tasks status_filter uid st
        = .ok (((st.tasks.filter (fun t => t.user_id == uid)).take 1000).map
            taskResponseOf)) ∧
    (∀ s, status_filter = some s → s ∈ allowedStatuses →
      get_tasks status_filter uid st
        = .ok (((st.tasks.filter
            (fun t => t.user_id == uid && t.status == some s)).take 1000).map
            taskResponseOf)) ∧
    (∀ s, status_filter = some s → s ≠ "" → s ∉ allowedStatuses →
      get_tasks status_filter uid st
        = .error (.badRequest
            "Invalid status. Must be one of: pending, in-progress, completed")) := by
  have hwfall : ∀ t ∈ st.tasks, t.wf = true := List.all_eq_true.1 hwf
  have hall : ∀ (p : TaskDoc → Bool),
      listTaskResponses ((st.tasks.filter p).take 1000)
        = .ok (((st.tasks.filter p).take 1000).map taskResponseOf) := by
    intro p
    refine listTaskResponses_of_wf _ ?_
    intro x hx
    exact hwfall x (List.mem_of_mem_filter (List.take_subset _ _ hx))
  refine ⟨?_, ?_, ?_⟩
  · rintro (h | h) <;> subst h <;> simp [get_tasks, hall]
  · intro s hs hmem
    subst hs
    have hne : s ≠ "" := by
      intro heq
      rw [heq] at hmem
      exact absurd hmem (by decide)
    simp [get_tasks, hne, hmem, hall]
  · intro s hs hne hnm
    subst hs
    simp [get_tasks, hne, hnm]

/-- C9: in a store with distinct user ids and distinct task ids, profile
deletion leaves no task owned by the deleted user and no user record with
that id, preserves every task owned by a different user and every other user
record, and a subsequent Get on any deleted task's id by any caller fails
with 404 `Task not found`. -/
theorem c9_delete_profile_cascade (st : AppState) (uid : String)
    (hndU : (st.users.map UserDoc.id).Nodup)
    (hndT : (st.tasks.map TaskDoc.id).Nodup) :
    (∀ t ∈ (delete_user_profile uid st).2.tasks, t.user_id ≠ uid) ∧
    (∀ u ∈ (delete_user_profile uid st).2.users, u.id ≠ uid) ∧
    (∀ t ∈ st.tasks, t.user_id ≠ uid → t ∈ (delete_user_profile uid st).2.tasks) ∧
    (∀ u ∈ st.users, u.id ≠ uid → u ∈ (delete_user_profile uid st).2.users) ∧
    (∀ t ∈ st.tasks, t.user_id = uid → ∀ caller,
      get_task t.id caller (delete_user_profile uid st).2
        = .error (.notFound "Task not found")) := by
  have htasks : (delete_user_profile uid st).2.tasks
      = st.tasks.filter (fun t => !(t.user_id == uid)) := rfl
  have husers : (delete_user_profile uid st).2.users
      = st.users.eraseP (fun u => u.id == uid) := rfl
  refine ⟨?_, ?_, ?_, ?_, ?_⟩
  · intro t ht
    rw [htasks] at ht
    have := (List.mem_filter.1 ht).2
    simpa using this
  · intro u hu
    rw [husers] at hu
    exact eraseP_key_ne UserDoc.id uid st.users hndU u hu
  · intro t ht hne
    rw [htasks]
    exact List.mem_filter.2 ⟨ht, by simpa using hne⟩
  · intro u hu hne
    rw [husers]
    exact (List.mem_eraseP_of_neg (by simpa using hne)).2 hu
  · intro t ht howner caller
    have hfind : ((delete_user_profile uid st).2.tasks).find?
        (fun x => x.id == t.id && x.user_id == caller) = none := by
      refine List.find?_eq_none.2 ?_
      intro x hx hpx
      rw [htasks] at hx
      have hxmem : x ∈ st.tasks := List.mem_of_mem_filter hx
      have hxo : x.user_id ≠ uid := by simpa using (List.mem_filter.1 hx).2
      simp only [Bool.and_eq_true, beq_iff_eq] at hpx
      have hxt : x = t := List.inj_on_of_nodup_map hndT hxmem ht hpx.1
      rw [hxt] at hxo
      exact hxo howner
    simp [get_task, hfind]

/-- C10 (implicit): signup rejects any password shorter than 6 characters
and profile update rejects a supplied password shorter than 6 characters,
both as pydantic input-validation failures that leave the store unchanged —
a minimum the spec never states. -/
theorem c10_password_min_length (st : AppState) (cu : UserDoc) (raw : RawUserCreate)
    (uu : UserUpdate) (genId : String) (now : Nat) (p q : String)
    (hp : raw.password = some p) (hlp : p.length < 6)
    (hq : uu.password = some (some q)) (hlq : q.length < 6) :
    (∃ d, signupRoute raw genId now st = (.error (.validation d), st)) ∧
    (∃ d, updateProfileRoute uu cu st = (.error (.validation d), st)) := by
  constructor
  · rcases raw with ⟨run, rem, rpw, rfn⟩
    simp only at hp
    subst hp
    cases run with
    | none => exact ⟨"Field required", by simp [signupRoute, parseUserCreate]⟩
    | some un =>
      cases rem with
      | none => exact ⟨"Field required", by simp [signupRoute, parseUserCreate]⟩
      | some em =>
        by_cases hl : (decide (un.length < 3) || decide (un.length > 50)) = true
        · exact ⟨"username: invalid length", by simp [signupRoute, parseUserCreate, hl]⟩
        · exact ⟨"password: String should have at least 6 characters",
            by simp [signupRoute, parseUserCreate, hl, hlp]⟩
  · have hv : validUserUpdate uu = false := by
      have h6 : ¬ (6 ≤ q.length) := Nat.not_le.2 hlq
      simp [validUserUpdate, hq, h6]
    exact ⟨"1 validation error for UserUpdate", by simp [updateProfileRoute, hv]⟩

/-- C7 (amended): a supplied status outside the three enumerated values makes
task creation fail before any state change, but with a 422 pydantic
validation error rather than a 400 BadRequest; when the body validates, the
created record is appended with `user_id` stamped from the resolved caller
(never from client input — `TaskCreate` carries no such field), and an
omitted status defaults to `"pending"`. -/
theorem c7_create_task_behavior (raw : RawTaskCreate) (uid genId : String)
    (now : Nat) (st : AppState) :
    ((∃ s, raw.status = some s ∧ s ∉ allowedStatuses) →
      ∃ d, createTaskRoute raw uid genId now st = (.error (.validation d), st)) ∧
    (∀ tc, parseTaskCreate raw = .ok tc →
      (createTaskRoute raw uid genId now st).2.tasks
        = st.tasks ++ [mkNewTask tc uid genId now] ∧
      (mkNewTask tc uid genId now).user_id = uid ∧
      (raw.status = none → (mkNewTask tc uid genId now).status = some "pending")) := by
  constructor
  · rintro ⟨s, hs, hns⟩
    rcases raw with ⟨rt, rd, rs, rdd⟩
    simp only at hs
    subst hs
    cases rt with
    | none => exact ⟨"title: Field required", by simp [createTaskRoute, parseTaskCreate]⟩
    | some ti =>
      by_cases hl : ti.length = 0 ∨ 200 < ti.length
      · exact ⟨"title: invalid length", by simp [createTaskRoute, parseTaskCreate, hl]⟩
      · exact ⟨"Status must be one of: pending, in-progress, completed",
          by simp [createTaskRoute, parseTaskCreate, hl, hns]⟩
  · intro tc htc
    refine ⟨by simp [createTaskRoute, htc, create_task], rfl, ?_⟩
    intro hnone
    rcases raw with ⟨rt, rd, rs, rdd⟩
    simp only at hnone
    subst hnone
    cases rt with
    | none => simp [parseTaskCreate] at htc
    | some ti =>
      simp only [parseTaskCreate] at htc
      by_cases hl : (decide (ti.length < 1) || decide (ti.length > 200)) = true
      · rw [if_pos hl] at htc
        cases htc
      · rw [if_neg hl] at htc
        simp only [Option.getD_none] at htc
        rw [if_pos (by decide : "pending" ∈ allowedStatuses)] at htc
        injection htc with h
        rw [mkNewTask, ← h]

/-- C1 witness: concrete one-task store, Get by a non-owner is the 404. -/
theorem c1_get_ownership_witness :
    get_task "tid-1" "B" sampleSt = .error (.notFound "Task not found") :=
  (c1_get_ownership sampleSt "tid-1" "A" "B" (by decide) (by decide)).2.1 (by decide)

/-- C3 witness: a conflict-free signup at the empty store succeeds and
persists the new user. -/
theorem c3_signup_duplicate_reporting_witness :
    (∃ tokv, (signup sampleSignup "uid-1" 0 ⟨[], []⟩).1 = .ok tokv) ∧
    (signup sampleSignup "uid-1" 0 ⟨[], []⟩).2
      = { users := [mkNewUser sampleSignup "uid-1" 0], tasks := [] } :=
  (c3_signup_duplicate_reporting ⟨[], []⟩ sampleSignup "uid-1" 0).2.2 (by decide)

/-- C4 witness: concrete signup at the empty store; the token verifies three
seconds later to the generated id. -/
theorem c4_signup_token_roundtrip_witness :
    ∃ tokv u, (signup sampleSignup "uid-1" 0 ⟨[], []⟩).1 = .ok tokv ∧
      get_current_user (some tokv.access_token) 3
        (signup sampleSignup "uid-1" 0 ⟨[], []⟩).2 = .ok u ∧
      u.id = "uid-1" :=
  c4_signup_token_roundtrip ⟨[], []⟩ sampleSignup "uid-1" 0 3 (by decide) (by decide)

/-- C6 witness: updating the sample task with `{"status": "completed"}`
rewrites only that task. -/
theorem c6_update_frame_witness :
    (update_task "tid-1" statusDone "A" sampleSt).2.tasks
      = sampleSt.tasks.map
          (fun t => if t.id = "tid-1" then applyTaskUpdate statusDone t else t) :=
  (c6_update_frame sampleSt "tid-1" "A" statusDone (by decide) (by decide)).2.1 (by decide)

/-- C7 witness: a bogus status is rejected as a validation error with the
store unchanged. -/
theorem c7_create_task_behavior_witness :
    ∃ d, createTaskRoute bogusCreate "A" "tid-9" 0 ⟨[], []⟩
      = (.error (.validation d), ⟨[], []⟩) :=
  (c7_create_task_behavior bogusCreate "A" "tid-9" 0 ⟨[], []⟩).1 ⟨"nope", rfl, by decide⟩

/-- C8 witness: a valid filter on the sample store returns the filtered
owned tasks. -/
theorem c8_list_filter_behavior_witness :
    get_tasks (some "pending") "A" sampleSt
      = .ok (((sampleSt.tasks.filter
          (fun t => t.user_id == "A" && t.status == some "pending")).take 1000).map
          taskResponseOf) :=
  (c8_list_filter_behavior sampleSt "A" (some "pending") (by decide)).2.1 "pending" rfl
    (by decide)

/-- C9 witness: after deleting user `"A"`, Get on the deleted task's id by
any caller is the 404. -/
theorem c9_delete_profile_cascade_witness :
    get_task "tid-1" "B" (delete_user_profile "A" sampleSt).2
      = .error (.notFound "Task not found") :=
  (c9_delete_profile_cascade sampleSt "A" (by decide) (by decide)).2.2.2.2
    sampleTask (by decide) rfl "B"

/-- C10 witness: a 3-character password is rejected by signup and by profile
update, leaving the store unchanged. -/
theorem c10_password_min_length_witness :
    (∃ d, signupRoute shortPwSignup "uid-9" 0 ⟨[], []⟩
      = (.error (.validation d), ⟨[], []⟩)) ∧
    (∃ d, updateProfileRoute shortPwUpdate sampleUser ⟨[], []⟩
      = (.error (.validation d), ⟨[], []⟩)) :=
  c10_password_min_length ⟨[], []⟩ sampleUser shortPwSignup shortPwUpdate
    "uid-9" 0 "abc" "abc" rfl (by decide) rfl (by decide)

end TaskApi
